import Mathlib

/-!
Shallow embedding of `gphotos/Main.py` (class `GooglePhotosSyncMain`).

The program is a process-lifecycle controller: `main` configures logging,
resolves paths, installs signal handlers, acquires a non-blocking exclusive
lock on `gphotos.lock`, and then runs the phase pipeline `start` under a
top-level `except Exception` capture.  We embed the control flow as a pure
function from the command-line arguments and an environment oracle (which
external operations succeed, which collaborator calls raise, whether a
signal arrives) to the list of observable events performed, in order, plus
the process outcome (a `sys.exit` code or an uncaught exception).
-/

namespace Gphotos

/-- The six pipeline phases of §4.3, as invoked by `GooglePhotosSyncMain.start`
(`Main.py` lines 172-184): `IndexPhotos` = `google_photos_sync.index_photos_media()`,
`IndexAlbums` = `google_albums_sync.index_album_media()`, `PersistIndex` =
`data_store.store()`, `DownloadPhotos` = `google_photos_sync.download_photo_media()`,
`LinkAlbums` = `google_albums_sync.create_album_content_links()`,
`ReconcileDeletions` = `google_photos_sync.check_for_removed()`. -/
inductive Phase where
  | IndexPhotos
  | IndexAlbums
  | PersistIndex
  | DownloadPhotos
  | LinkAlbums
  | ReconcileDeletions
  deriving DecidableEq, Repr

/-- The two signals `main` installs `sigterm_handler` for
(`Main.py` lines 192-193). -/
inductive Sig where
  | SIGTERM
  | SIGINT
  deriving DecidableEq, Repr

/-- Python exception classes that arise in `Main.py`.  `SystemExit` (raised by
`sys.exit`) derives from `BaseException`, not `Exception`; all of the others
are `Exception` subclasses. -/
inductive ExcName where
  | ValueError
  | FileNotFoundError
  | IOError
  | SystemExit (code : Nat)
  | other (typeName : String)
  deriving DecidableEq, Repr

/-- Whether the class is a subclass of Python's `Exception`, i.e. whether an
`except Exception` clause catches it.  `SystemExit` is not. -/
def isException : ExcName → Bool
  | ExcName.SystemExit _ => false
  | _ => true

/-- Python's `type(e).__name__` for the exception classes we model. -/
def excTypeName : ExcName → String
  | ExcName.ValueError => "ValueError"
  | ExcName.FileNotFoundError => "FileNotFoundError"
  | ExcName.IOError => "OSError"
  | ExcName.SystemExit _ => "SystemExit"
  | ExcName.other s => s

/-- Process outcome: an orderly `sys.exit`/fall-off-the-end exit code, or an
exception that escaped `main` uncaught (the Python interpreter then prints a
traceback and exits with status 1). -/
inductive Outcome where
  | exit (code : Nat)
  | uncaught (e : ExcName)
  deriving DecidableEq, Repr

/-- The numeric process exit status an `Outcome` produces. -/
def Outcome.exitCode : Outcome → Nat
  | Outcome.exit c => c
  | Outcome.uncaught _ => 1

/-- The parsed command-line arguments consumed by the lifecycle controller
(the `argparse` fields of `Main.py` lines 35-96 that `main`/`start` read).
Defaults mirror the `argparse` declarations. -/
structure Args where
  root_folder : String
  log_level : String := "info"
  db_path : Option String := none
  skip_index : Bool := false
  index_only : Bool := false
  skip_files : Bool := false
  do_delete : Bool := false
  flush_index : Bool := false
  skip_video : Bool := false

/-- The observable effects of a run, in program order.  Each constructor is
one source line of `Main.py`: `installHandler` = `signal.signal` (192-193),
`mkdirs` = `os.makedirs(args.root_folder, 0o700)` (197), `openLock` =
`open(lock_file, 'w')` (200), `lockAttempt` = `fcntl.lockf(fp, LOCK_EX|LOCK_NB)`
(203), `warnLocked` = the line-205 warning, `logVersion` = lines 209-213,
`setupStarted`/`setupDone` = `self.setup` (217), `storeOpen`/`storeClose` =
entering/leaving `with self.data_store` (173), `phase` = a collaborator phase
call, `warnUserCancelled`/`warnProcessKilled` = handler warnings (136-138),
`warnProcessFailed` = the line-220 warning (with the exception type name and
`self.trace_file`), `writeTrace` = `open(path, mode)` + `write(content)`
(140-141 and 222-223), `logDone` = line 225, `closeLock` = `with fp` scope
exit, `logElapsed` = line 228. -/
inductive Event where
  | installHandler (s : Sig)
  | mkdirs (path : String)
  | openLock (path : String)
  | lockAttempt (path : String)
  | warnLocked
  | logVersion (available : Bool)
  | setupStarted
  | setupDone
  | storeOpen
  | phase (p : Phase)
  | storeClose
  | warnUserCancelled
  | warnProcessKilled
  | warnProcessFailed (excName : String) (traceFile : String)
  | writeTrace (path : String) (content : String) (mode : String)
  | logDone
  | closeLock
  | logElapsed
  deriving DecidableEq, Repr

/-- Constant `TRACE_FILE = ".gphotos-terminated"` (`Main.py` line 21). -/
def TRACE_FILE : String := ".gphotos-terminated"

/-- POSIX absolute-path test, as `os.path` uses on the target platform. -/
def isAbsolute (p : String) : Bool :=
  match p.data with
  | '/' :: _ => true
  | _ => false

/-- Python's `os.path.abspath`: a relative path is resolved against the process's
current working directory. -/
def abspath (cwd p : String) : String :=
  if isAbsolute p then p else cwd ++ "/" ++ p

/-- Python's `os.path.join` for the two-argument uses in `Main.py`. -/
def joinPath (d f : String) : String :=
  if isAbsolute f then f else d ++ "/" ++ f

/-- The pipeline gating of `GooglePhotosSyncMain.start` (`Main.py` 172-184):
the exact sequence of phases invoked for a flag combination, assuming no
failure interrupts it. -/
def startPhases (a : Args) : List Phase :=
  (if !a.skip_index then
      (if !a.skip_files then [Phase.IndexPhotos] else []) ++
        [Phase.IndexAlbums, Phase.PersistIndex]
    else []) ++
  (if !a.index_only then
      (if !a.skip_files then [Phase.DownloadPhotos] else []) ++
        [Phase.LinkAlbums] ++
        (if a.do_delete then [Phase.ReconcileDeletions] else [])
    else [])

/-- The phase sequence prescribed by the specification's §4.3 pseudocode,
written from the spec's words (for comparison with `startPhases`, which is
written from the source): `if not skipIndex: [IndexPhotos unless skipFiles];
IndexAlbums; PersistIndex`, then `if not indexOnly: [DownloadPhotos unless
skipFiles]; LinkAlbums; [ReconcileDeletions if doDelete]`. -/
def specPhaseSequence (skipIndex indexOnly skipFiles doDelete : Bool) : List Phase :=
  (if skipIndex then [] else
      (if skipFiles then [] else [Phase.IndexPhotos]) ++
        [Phase.IndexAlbums, Phase.PersistIndex]) ++
  (if indexOnly then [] else
      (if skipFiles then [] else [Phase.DownloadPhotos]) ++
        [Phase.LinkAlbums] ++
        (if doDelete then [Phase.ReconcileDeletions] else []))

/-- The environment oracle for one invocation: the state of the external
world and the behaviour of the out-of-scope collaborators.  `cwd` is the
process working directory (relative paths in `open` resolve against it);
`rootExists` is `os.path.exists(args.root_folder)` at line 196; `dbDirExists`
says whether the directory named by a supplied `--db-path` exists, so whether
`open(lock_file, 'w')` at line 200 succeeds there; `lockHeld` says whether
another live process holds the advisory lock, making `fcntl.lockf` raise
`IOError`; `versionAvailable` is whether `pkg_resources` finds the
distribution; `setupRaises` is an exception escaping `self.setup` (auth,
data store, ...); `phaseExc p` is an exception the collaborator call for
phase `p` raises; `signalAfter = some (k, s)` delivers signal `s` after `k`
phase calls of `start` have completed. -/
structure Env where
  cwd : String
  rootExists : Bool
  dbDirExists : Bool
  lockHeld : Bool
  versionAvailable : Bool
  setupRaises : Option ExcName
  phaseExc : Phase → Option ExcName
  signalAfter : Option (Nat × Sig)

/-- Python's `traceback.format_exc()`: the formatted current exception, or the string
`"NoneType: None\n"` when no exception is being handled (as in a signal
handler interrupting normal execution). -/
def format_exc : Option ExcName → String
  | none => "NoneType: None\n"
  | some e => "Traceback (most recent call last):\n" ++ excTypeName e ++ "\n"

/-- Both `open(TRACE_FILE, "w")` calls (lines 140 and 222) use mode `"w"`:
truncate/overwrite. -/
def writeMode : String := "w"

/-- Method `GooglePhotosSyncMain.sigterm_handler` (`Main.py` 133-142), as the events
it performs and the exception it raises.  `activeExc` is the exception being
handled at the moment the signal arrives (none during normal execution).
It warns "User cancelled download" only for `SIGINT`, always warns "Process
killed (stacktrace in .gphotos-terminated)", writes `format_exc` of the
current exception to the bare relative path `TRACE_FILE` (resolved against
the working directory), and raises `SystemExit 0` via `sys.exit(0)`. -/
def sigterm_handler (s : Sig) (activeExc : Option ExcName) (cwd : String) :
    List Event × ExcName :=
  ((if s = Sig.SIGINT then [Event.warnUserCancelled] else []) ++
    [Event.warnProcessKilled,
     Event.writeTrace (joinPath cwd TRACE_FILE) (format_exc activeExc) writeMode],
   ExcName.SystemExit 0)

/-- Decrement the pending-signal counter as one phase completes. -/
def sigDec : Option (Nat × Sig) → Option (Nat × Sig)
  | some (Nat.succ k, s) => some (k, s)
  | o => o

/-- Run the phase list of `start` under the environment: each phase either
raises the exception `exc` assigns it (aborting the rest), or completes; a
pending signal with counter 0 fires `sigterm_handler` (no exception is
active then), whose `SystemExit` aborts the rest. -/
def runPhases (exc : Phase → Option ExcName) (cwd : String) :
    Option (Nat × Sig) → List Phase → List Event × Option ExcName
  | some (0, s), _ =>
      ((sigterm_handler s none cwd).1, some (sigterm_handler s none cwd).2)
  | _, [] => ([], none)
  | sig, p :: ps =>
      match exc p with
      | some e => ([Event.phase p], some e)
      | none =>
          let rest := runPhases exc cwd (sigDec sig) ps
          (Event.phase p :: rest.1, rest.2)

/-- The body of the innermost `try` of `main` (line 217-218): `self.setup`
followed by `self.start`.  `setup` either raises or completes; `start` opens
the data store (`with self.data_store:`), runs the gated phases, and the
store is closed again on every exit path (normal, exception, `SystemExit`
from the signal handler), since `with` runs `__exit__` when an exception
passes through. -/
def runBody (a : Args) (env : Env) : List Event × Option ExcName :=
  match env.setupRaises with
  | some e => ([Event.setupStarted], some e)
  | none =>
      let ph := runPhases env.phaseExc env.cwd env.signalAfter (startPhases a)
      ([Event.setupStarted, Event.setupDone, Event.storeOpen] ++ ph.1 ++
        [Event.storeClose], ph.2)

/-- The database path of line 195: `args.db_path if args.db_path else
args.root_folder` (with `root_folder` already made absolute at line 190). -/
def dbPathOf (a : Args) (root : String) : String :=
  match a.db_path with
  | some p => p
  | none => root

/-- Whether `open(lock_file, 'w')` at line 200 succeeds: when `--db-path` is
supplied the program never creates that directory, so the open raises
`FileNotFoundError` if it is absent; without `--db-path` the lock file lives
in the root folder, which line 196-197 just ensured exists. -/
def lockOpenOk (a : Args) (env : Env) : Bool :=
  match a.db_path with
  | some _ => env.dbDirExists
  | none => true

/-- The uppercase attribute names of Python's `logging` module bound to
`int`s: exactly the strings for which `getattr(logging, s.upper())` is an
integer log level. -/
def logLevelNames : List String :=
  ["CRITICAL", "FATAL", "ERROR", "WARN", "WARNING", "INFO", "DEBUG", "NOTSET"]

/-- Python's `str.upper` on one character, restricted to ASCII (all inputs
compared against here are ASCII attribute names). -/
def upperChar (c : Char) : Char :=
  if 'a' ≤ c ∧ c ≤ 'z' then Char.ofNat (c.toNat - 32) else c

/-- Python's `str.upper` restricted to ASCII, as applied to the
`--log-level` value at line 146. -/
def upperAscii (s : String) : String := ⟨s.data.map upperChar⟩

/-- Whether `GooglePhotosSyncMain.logging` (`Main.py` 144-148) accepts the
`--log-level` value; otherwise it raises `ValueError`. -/
def logLevelValid (s : String) : Bool := logLevelNames.contains (upperAscii s)

/-- Method `GooglePhotosSyncMain.main` (`Main.py` 186-228) as the ordered list of
observable events and the process outcome.  Mirrors the source line by line:
`logging(args)` (raises `ValueError` on a bad level, before anything else of
interest happens); `root_folder = abspath(...)`; `trace_file = join(root,
TRACE_FILE)`; install the two signal handlers; resolve `db_path`; create the
root folder if absent; open the lock file (uncaught `FileNotFoundError` if a
supplied `--db-path` directory is missing); inside `with fp:` attempt the
non-blocking lock, on `IOError` warn and `sys.exit(0)`; log the version; run
`setup`+`start` under `except Exception`, which logs `warnProcessFailed`
with the exception's type name and `self.trace_file`, then writes the
traceback to the bare relative `TRACE_FILE`; the `finally` logs "Done."; the
`with fp:` closes the lock descriptor on every path; a `SystemExit` (not an
`Exception` subclass) propagates past the capture, so only a normal or
captured completion reaches the elapsed-time report of line 227-228. -/
def mainRun (a : Args) (env : Env) : List Event × Outcome :=
  if logLevelValid a.log_level then
    let root := abspath env.cwd a.root_folder
    let traceFile := joinPath root TRACE_FILE
    let db_path := dbPathOf a root
    let lock_file := joinPath db_path "gphotos.lock"
    let evPre : List Event :=
      [Event.installHandler Sig.SIGTERM, Event.installHandler Sig.SIGINT] ++
        (if env.rootExists then [] else [Event.mkdirs root])
    if lockOpenOk a env then
      if env.lockHeld then
        (evPre ++ [Event.openLock lock_file, Event.lockAttempt lock_file,
           Event.warnLocked, Event.closeLock],
         Outcome.exit 0)
      else
        let evLock := evPre ++ [Event.openLock lock_file,
          Event.lockAttempt lock_file, Event.logVersion env.versionAvailable]
        let body := runBody a env
        match body.2 with
        | none =>
            (evLock ++ body.1 ++ [Event.logDone, Event.closeLock, Event.logElapsed],
             Outcome.exit 0)
        | some e =>
            if isException e then
              (evLock ++ body.1 ++
                 [Event.warnProcessFailed (excTypeName e) traceFile,
                  Event.writeTrace (joinPath env.cwd TRACE_FILE) (format_exc (some e))
                    writeMode,
                  Event.logDone, Event.closeLock, Event.logElapsed],
               Outcome.exit 0)
            else
              (evLock ++ body.1 ++ [Event.logDone, Event.closeLock],
               match e with
               | ExcName.SystemExit c => Outcome.exit c
               | e' => Outcome.uncaught e')
    else
      (evPre, Outcome.uncaught ExcName.FileNotFoundError)
  else
    ([], Outcome.uncaught ExcName.ValueError)

/-- A benign environment: working directory `/cwd`, root folder and db
directory exist, lock free, version known, no collaborator failure, no
signal. -/
def envPlain : Env := ⟨"/cwd", true, true, false, true, none, fun _ => none, none⟩

/-- Arguments with every optional flag at its `argparse` default and root
folder `/photos`. -/
def argsPlain : Args := ⟨"/photos", "info", none, false, false, false, false, false, false⟩

/-- An environment in which the collaborator call for `IndexAlbums` raises
`KeyError` and everything else is benign. -/
def envAlbumsRaise : Env :=
  ⟨"/cwd", true, true, false, true, none,
   fun p => if p = Phase.IndexAlbums then some (ExcName.other "KeyError") else none,
   none⟩

/-- An environment in which `SIGTERM` is delivered after two phase calls and
everything else is benign. -/
def envSignal2 : Env :=
  ⟨"/cwd", true, true, false, true, none, fun _ => none, some (2, Sig.SIGTERM)⟩

/-- Recogniser for trace-file write events. -/
def isTraceWrite : Event → Bool
  | Event.writeTrace _ _ _ => true
  | _ => false

/-- A benign environment except that the directory of a supplied `--db-path`
does not exist. -/
def envNoDb : Env := ⟨"/cwd", true, false, false, true, none, fun _ => none, none⟩

/-! ## Theorems -/

/-- C1: for every flag combination, `start` invokes exactly the phase
sequence of the §4.3 gating: when `skipIndex` is false it runs `IndexPhotos`
(only if `skipFiles` is false), then `IndexAlbums`, then `PersistIndex`;
when `indexOnly` is false it then runs `DownloadPhotos` (only if `skipFiles`
is false), then `LinkAlbums`, then `ReconcileDeletions` (only if `doDelete`);
no other phase runs and the order is exactly this.  In particular, with
`skipIndex=true` none of the three index-stage phases is invoked, and the
all-false flag combination yields exactly
`[IndexPhotos, IndexAlbums, PersistIndex, DownloadPhotos, LinkAlbums]`. -/
theorem start_phase_gating :
    (∀ a : Args,
        startPhases a =
          specPhaseSequence a.skip_index a.index_only a.skip_files a.do_delete) ∧
    (∀ a : Args, a.skip_index = true →
        Phase.IndexPhotos ∉ startPhases a ∧ Phase.IndexAlbums ∉ startPhases a ∧
          Phase.PersistIndex ∉ startPhases a) ∧
    (∀ a : Args, a.skip_index = false → a.index_only = false →
        a.skip_files = false → a.do_delete = false →
        startPhases a =
          [Phase.IndexPhotos, Phase.IndexAlbums, Phase.PersistIndex,
           Phase.DownloadPhotos, Phase.LinkAlbums]) := by
  refine ⟨?_, ?_, ?_⟩
  · rintro ⟨rf, ll, dp, si, io, sf, dd, fi, sv⟩
    cases si <;> cases io <;> cases sf <;> cases dd <;> rfl
  · rintro ⟨rf, ll, dp, si, io, sf, dd, fi, sv⟩ h
    cases h
    cases io <;> cases sf <;> cases dd <;> refine ⟨?_, ?_, ?_⟩ <;>
      simp [startPhases]
  · rintro ⟨rf, ll, dp, si, io, sf, dd, fi, sv⟩ h1 h2 h3 h4
    cases h1; cases h2; cases h3; cases h4
    rfl

/-- Witness for C1 at `skipIndex=true`: no `IndexPhotos` is invoked. -/
theorem start_phase_gating_witness :
    Phase.IndexPhotos ∉
      startPhases ⟨"/photos", "info", none, true, false, false, false, false, false⟩ :=
  (start_phase_gating.2.1 ⟨"/photos", "info", none, true, false, false, false, false, false⟩
    rfl).1

/-- Firing the pending signal: `runPhases` with counter 0 performs the
handler's events and raises its `SystemExit 0`, whatever phases remain. -/
theorem runPhases_sig0 (exc : Phase → Option ExcName) (cwd : String) (s : Sig)
    (l : List Phase) :
    runPhases exc cwd (some (0, s)) l =
      ((sigterm_handler s none cwd).1, some (ExcName.SystemExit 0)) := by
  cases l <;> rfl

/-- With no pending signal and no phase failure, `runPhases` performs exactly
one `phase` event per listed phase, in order, and raises nothing. -/
theorem runPhases_clean (exc : Phase → Option ExcName) (cwd : String)
    (l : List Phase) :
    (∀ p ∈ l, exc p = none) →
      runPhases exc cwd none l = (l.map Event.phase, none) := by
  induction l with
  | nil => intro _; rfl
  | cons p ps ih =>
      intro h
      have hp : exc p = none := h p (by simp)
      have hps : ∀ q ∈ ps, exc q = none := fun q hq => h q (by simp [hq])
      simp [runPhases, hp, sigDec, ih hps]

/-- With no phase failure and the signal counter within the phase list, the
first `k` phases complete, then the handler fires and raises `SystemExit 0`. -/
theorem runPhases_signal (exc : Phase → Option ExcName) (cwd : String) (s : Sig)
    (l : List Phase) :
    ∀ k : Nat, k ≤ l.length → (∀ p ∈ l, exc p = none) →
      runPhases exc cwd (some (k, s)) l =
        ((l.take k).map Event.phase ++ (sigterm_handler s none cwd).1,
         some (ExcName.SystemExit 0)) := by
  induction l with
  | nil =>
      intro k hk _
      have hk0 : k = 0 := Nat.le_zero.mp hk
      subst hk0
      simpa using runPhases_sig0 exc cwd s []
  | cons p ps ih =>
      intro k hk h
      cases k with
      | zero => simpa using runPhases_sig0 exc cwd s (p :: ps)
      | succ k =>
          have hp : exc p = none := h p (by simp)
          have hps : ∀ q ∈ ps, exc q = none := fun q hq => h q (by simp [hq])
          have hk' : k ≤ ps.length := Nat.succ_le_succ_iff.mp (by simpa using hk)
          simp [runPhases, hp, sigDec, ih k hk' hps]

/-- Every event `runPhases` performs is a `phase` event or one of the three
events of the signal handler. -/
theorem runPhases_mem (exc : Phase → Option ExcName) (cwd : String)
    (l : List Phase) :
    ∀ (sig : Option (Nat × Sig)) (ev : Event), ev ∈ (runPhases exc cwd sig l).1 →
      (∃ p, ev = Event.phase p) ∨ ev = Event.warnUserCancelled ∨
        ev = Event.warnProcessKilled ∨
        ev = Event.writeTrace (joinPath cwd TRACE_FILE) (format_exc none) writeMode := by
  induction l with
  | nil =>
      intro sig ev h
      rcases sig with _ | ⟨k, s⟩
      · simp [runPhases] at h
      · cases k with
        | zero =>
            rw [runPhases_sig0] at h
            cases s <;> simp [sigterm_handler] at h <;> tauto
        | succ k => simp [runPhases] at h
  | cons p ps ih =>
      intro sig ev h
      rcases sig with _ | ⟨k, s⟩
      · rcases hp : exc p with _ | e
        · simp [runPhases, hp, sigDec] at h
          rcases h with h | h
          · exact Or.inl ⟨p, h⟩
          · exact ih none ev h
        · simp [runPhases, hp] at h
          exact Or.inl ⟨p, h⟩
      · cases k with
        | zero =>
            rw [runPhases_sig0] at h
            cases s <;> simp [sigterm_handler] at h <;> tauto
        | succ k =>
            rcases hp : exc p with _ | e
            · simp [runPhases, hp, sigDec] at h
              rcases h with h | h
              · exact Or.inl ⟨p, h⟩
              · exact ih (some (k, s)) ev h
            · simp [runPhases, hp] at h
              exact Or.inl ⟨p, h⟩

/-- Every event of the `setup`+`start` body is a setup/store bookkeeping
event, a `phase` event, or a signal-handler event. -/
theorem runBody_mem (a : Args) (env : Env) (ev : Event)
    (h : ev ∈ (runBody a env).1) :
    ev = Event.setupStarted ∨ ev = Event.setupDone ∨ ev = Event.storeOpen ∨
      ev = Event.storeClose ∨ (∃ p, ev = Event.phase p) ∨
      ev = Event.warnUserCancelled ∨ ev = Event.warnProcessKilled ∨
      ev = Event.writeTrace (joinPath env.cwd TRACE_FILE) (format_exc none)
        writeMode := by
  unfold runBody at h
  rcases hs : env.setupRaises with _ | e <;> rw [hs] at h <;> simp at h
  · rcases h with h | h | h | h
    · tauto
    · tauto
    · tauto
    · rcases h with h | h
      · have := runPhases_mem env.phaseExc env.cwd (startPhases a)
          env.signalAfter ev h
        tauto
      · tauto
  · tauto

/-- Every event of a whole `main` run is one of: the two handler
installations, creating the root folder, opening/locking the lock file, the
contention warning, the version log, a body (`setup`/`start`) event, the
process-failed warning naming `self.trace_file`, a trace write to the
working-directory-relative `TRACE_FILE` in mode `"w"`, or the
Done/close/elapsed bookkeeping. -/
theorem mainRun_mem (a : Args) (env : Env) (ev : Event)
    (h : ev ∈ (mainRun a env).1) :
    ev = Event.installHandler Sig.SIGTERM ∨ ev = Event.installHandler Sig.SIGINT ∨
      ev = Event.mkdirs (abspath env.cwd a.root_folder) ∨
      ev = Event.openLock
        (joinPath (dbPathOf a (abspath env.cwd a.root_folder)) "gphotos.lock") ∨
      ev = Event.lockAttempt
        (joinPath (dbPathOf a (abspath env.cwd a.root_folder)) "gphotos.lock") ∨
      ev = Event.warnLocked ∨ ev = Event.logVersion env.versionAvailable ∨
      ev ∈ (runBody a env).1 ∨
      (∃ en, ev = Event.warnProcessFailed en
        (joinPath (abspath env.cwd a.root_folder) TRACE_FILE)) ∨
      (∃ c, ev = Event.writeTrace (joinPath env.cwd TRACE_FILE) c writeMode) ∨
      ev = Event.logDone ∨ ev = Event.closeLock ∨ ev = Event.logElapsed := by
  simp only [mainRun] at h
  split at h
  · split at h
    · split at h
      · cases hr : env.rootExists <;> simp [hr] at h <;> tauto
      · split at h
        · cases hr : env.rootExists <;> simp [hr] at h <;> tauto
        · split at h
          · cases hr : env.rootExists <;> simp [hr] at h <;> aesop
          · cases hr : env.rootExists <;> simp [hr] at h <;> tauto
    · cases hr : env.rootExists <;> simp [hr] at h <;> tauto
  · simp at h

/-- C3: whenever the non-blocking exclusive lock is already held by another
live process, the acquisition attempt fails, the run logs the
"EXITING: database is locked" warning and exits with code 0, and no pipeline
work happens: no `setup`, no data-store open, and no phase call. -/
theorem lock_contention_exits_clean (a : Args) (env : Env)
    (hl : logLevelValid a.log_level = true)
    (ho : lockOpenOk a env = true)
    (hheld : env.lockHeld = true) :
    (mainRun a env).2 = Outcome.exit 0 ∧
    Event.warnLocked ∈ (mainRun a env).1 ∧
    Event.setupStarted ∉ (mainRun a env).1 ∧
    Event.storeOpen ∉ (mainRun a env).1 ∧
    (∀ p, Event.phase p ∉ (mainRun a env).1) := by
  cases hr : env.rootExists <;> simp [mainRun, hl, ho, hheld, hr]

/-- Witness for C3: a concrete lock-contended run exits 0 with the warning
and performs no phase. -/
theorem lock_contention_exits_clean_witness :
    (mainRun argsPlain
        ⟨"/cwd", true, true, true, true, none, fun _ => none, none⟩).2 =
      Outcome.exit 0 :=
  (lock_contention_exits_clean argsPlain
    ⟨"/cwd", true, true, true, true, none, fun _ => none, none⟩ rfl rfl rfl).1

/-- C2 counterexample: with `--log-level bananas`, `self.logging(args)`
raises `ValueError` at line 148, before the top-level capture of line 216
exists, so the exception escapes `main` uncaught and the process exit status
is 1, not 0 — refuting "there exists no error that produces a non-zero
exit". -/
theorem invalid_log_level_nonzero_exit :
    (mainRun ⟨"/photos", "bananas", none, false, false, false, false, false,
        false⟩ envPlain).2 = Outcome.uncaught ExcName.ValueError ∧
    ((mainRun ⟨"/photos", "bananas", none, false, false, false, false, false,
        false⟩ envPlain).2).exitCode ≠ 0 := by
  refine ⟨?_, ?_⟩ <;> decide

/-- C2 (amended): any exception that is a subclass of `Exception` surfacing
from the inner `try` (setup, authorization, or any pipeline phase) is caught
at the top level, logged with its type name, written to the trace file, and
swallowed, so the process exits 0; errors raised before that capture is
installed (such as an invalid `--log-level`) are outside this guarantee. -/
theorem captured_failure_exits_zero (a : Args) (env : Env) (e : ExcName)
    (hl : logLevelValid a.log_level = true)
    (ho : lockOpenOk a env = true)
    (hheld : env.lockHeld = false)
    (hb : (runBody a env).2 = some e)
    (he : isException e = true) :
    (mainRun a env).2 = Outcome.exit 0 ∧
    Event.warnProcessFailed (excTypeName e)
        (joinPath (abspath env.cwd a.root_folder) TRACE_FILE) ∈
      (mainRun a env).1 ∧
    Event.writeTrace (joinPath env.cwd TRACE_FILE) (format_exc (some e))
        writeMode ∈ (mainRun a env).1 := by
  rcases hrb : runBody a env with ⟨bevs, bexc⟩
  rw [hrb] at hb
  simp at hb
  subst hb
  cases hr : env.rootExists <;> simp [mainRun, hl, ho, hheld, hr, hrb, he]

/-- Witness for C2's amended theorem: a concrete run whose `setup` raises
`KeyError` still exits 0. -/
theorem captured_failure_exits_zero_witness :
    (mainRun argsPlain
        ⟨"/cwd", true, true, false, true, some (ExcName.other "KeyError"),
         fun _ => none, none⟩).2 = Outcome.exit 0 :=
  (captured_failure_exits_zero argsPlain
    ⟨"/cwd", true, true, false, true, some (ExcName.other "KeyError"),
     fun _ => none, none⟩ (ExcName.other "KeyError") rfl rfl rfl rfl rfl).1

/-- C6: if the collaborator call of the `IndexAlbums` phase raises an
unhandled `Exception`, the remaining phases are aborted — in particular
`PersistIndex` (`data_store.store()`) is never invoked — the failure reaches
the top-level capture, a trace file is written, and the process exits 0. -/
theorem index_albums_failure_aborts (a : Args) (env : Env) (e : ExcName)
    (hl : logLevelValid a.log_level = true)
    (ho : lockOpenOk a env = true)
    (hheld : env.lockHeld = false)
    (hsetup : env.setupRaises = none)
    (hsig : env.signalAfter = none)
    (hskip : a.skip_index = false)
    (hip : env.phaseExc Phase.IndexPhotos = none)
    (hia : env.phaseExc Phase.IndexAlbums = some e)
    (he : isException e = true) :
    Event.phase Phase.PersistIndex ∉ (mainRun a env).1 ∧
    Event.writeTrace (joinPath env.cwd TRACE_FILE) (format_exc (some e))
        writeMode ∈ (mainRun a env).1 ∧
    (mainRun a env).2 = Outcome.exit 0 := by
  have hb : runBody a env =
      ([Event.setupStarted, Event.setupDone, Event.storeOpen] ++
         ((if !a.skip_files then [Event.phase Phase.IndexPhotos] else []) ++
           [Event.phase Phase.IndexAlbums]) ++ [Event.storeClose], some e) := by
    cases hsf : a.skip_files <;>
      simp [runBody, hsetup, hsig, startPhases, hskip, hsf, runPhases, hip,
        hia, sigDec]
  cases hr : env.rootExists <;> cases hsf : a.skip_files <;>
    simp [mainRun, hl, ho, hheld, hr, hb, he, hsf]

/-- Witness for C6: a concrete run whose `IndexAlbums` raises `KeyError`
never invokes `PersistIndex`. -/
theorem index_albums_failure_aborts_witness :
    Event.phase Phase.PersistIndex ∉ (mainRun argsPlain envAlbumsRaise).1 :=
  (index_albums_failure_aborts argsPlain envAlbumsRaise (ExcName.other "KeyError")
    rfl rfl rfl rfl rfl rfl rfl rfl rfl).1

/-- C7: on a clean successful run — lock acquired, no signal delivered, no
unhandled failure — no trace file is written at all and the process exits 0;
moreover every trace write any run ever performs uses mode `"w"`, i.e.
truncates/overwrites previous content. -/
theorem clean_run_writes_no_trace :
    (∀ (a : Args) (env : Env),
        logLevelValid a.log_level = true → lockOpenOk a env = true →
        env.lockHeld = false → env.setupRaises = none →
        (∀ p, env.phaseExc p = none) → env.signalAfter = none →
        (∀ pth c m, Event.writeTrace pth c m ∉ (mainRun a env).1) ∧
          (mainRun a env).2 = Outcome.exit 0) ∧
    (∀ (a : Args) (env : Env) (pth c m : String),
        Event.writeTrace pth c m ∈ (mainRun a env).1 → m = writeMode) := by
  constructor
  · intro a env hl ho hheld hsetup hph hsig
    have hb : runBody a env =
        ([Event.setupStarted, Event.setupDone, Event.storeOpen] ++
           (startPhases a).map Event.phase ++ [Event.storeClose], none) := by
      simp [runBody, hsetup, hsig,
        runPhases_clean env.phaseExc env.cwd (startPhases a) (fun p _ => hph p)]
    cases hr : env.rootExists <;> simp [mainRun, hl, ho, hheld, hr, hb]
  · intro a env pth c m hmem
    rcases mainRun_mem a env _ hmem with h|h|h|h|h|h|h|h|h|h|h|h|h
    · simp at h
    · simp at h
    · simp at h
    · simp at h
    · simp at h
    · simp at h
    · simp at h
    · rcases runBody_mem a env _ h with h|h|h|h|⟨p, h⟩|h|h|h <;> simp at h
      exact h.2.2
    · rcases h with ⟨en, h⟩
      simp at h
    · rcases h with ⟨c2, h⟩
      simp at h
      exact h.2.2
    · simp at h
    · simp at h
    · simp at h

/-- Witness for C7: the concrete clean run writes no trace file. -/
theorem clean_run_writes_no_trace_witness :
    Event.writeTrace "/cwd/.gphotos-terminated" "NoneType: None\n" "w" ∉
      (mainRun argsPlain envPlain).1 :=
  ((clean_run_writes_no_trace.1 argsPlain envPlain rfl rfl rfl rfl
      (fun _ => rfl) rfl).1) "/cwd/.gphotos-terminated" "NoneType: None\n" "w"

/-- C8 counterexample: in a concrete benign run, the `installHandler`
event for `SIGTERM` (line 192) occurs strictly before the `lockAttempt`
event (line 203) in the trace — the diagnostics handlers are installed
before the lock is acquired, refuting "the diagnostics handlers are never
installed before the lock is acquired". -/
theorem handlers_before_lock_counterexample :
    Event.lockAttempt "/photos/gphotos.lock" ∈ (mainRun argsPlain envPlain).1 ∧
    List.indexOf (Event.installHandler Sig.SIGTERM)
        (mainRun argsPlain envPlain).1 <
      List.indexOf (Event.lockAttempt "/photos/gphotos.lock")
        (mainRun argsPlain envPlain).1 := by
  refine ⟨?_, ?_⟩ <;> decide

/-- C8 (amended): the startup order of `main` is: resolve the root and
trace paths, install the two diagnostics handlers, create the root folder if
absent, open the lock file, attempt the lock — so the handlers are always
installed (immediately after path resolution) BEFORE the lock is acquired,
and every run that reaches the lock attempt begins with exactly this event
prefix. -/
theorem handlers_installed_before_lock (a : Args) (env : Env)
    (hl : logLevelValid a.log_level = true)
    (ho : lockOpenOk a env = true) :
    ∃ tail : List Event,
      (mainRun a env).1 =
        [Event.installHandler Sig.SIGTERM, Event.installHandler Sig.SIGINT] ++
          (if env.rootExists then [] else
            [Event.mkdirs (abspath env.cwd a.root_folder)]) ++
          (Event.openLock
              (joinPath (dbPathOf a (abspath env.cwd a.root_folder))
                "gphotos.lock") ::
            Event.lockAttempt
              (joinPath (dbPathOf a (abspath env.cwd a.root_folder))
                "gphotos.lock") :: tail) := by
  by_cases hheld : env.lockHeld
  · refine ⟨[Event.warnLocked, Event.closeLock], ?_⟩
    cases hr : env.rootExists <;> simp [mainRun, hl, ho, hheld, hr]
  · rcases hb : runBody a env with ⟨bevs, bexc⟩
    rcases bexc with _ | e
    · refine ⟨Event.logVersion env.versionAvailable :: bevs ++
        [Event.logDone, Event.closeLock, Event.logElapsed], ?_⟩
      cases hr : env.rootExists <;> simp [mainRun, hl, ho, hheld, hr, hb]
    · by_cases he : isException e
      · refine ⟨Event.logVersion env.versionAvailable :: bevs ++
          [Event.warnProcessFailed (excTypeName e)
             (joinPath (abspath env.cwd a.root_folder) TRACE_FILE),
           Event.writeTrace (joinPath env.cwd TRACE_FILE)
             (format_exc (some e)) writeMode,
           Event.logDone, Event.closeLock, Event.logElapsed], ?_⟩
        cases hr : env.rootExists <;> simp [mainRun, hl, ho, hheld, hr, hb, he]
      · refine ⟨Event.logVersion env.versionAvailable :: bevs ++
          [Event.logDone, Event.closeLock], ?_⟩
        cases hr : env.rootExists <;> simp [mainRun, hl, ho, hheld, hr, hb, he]

/-- Witness for C8's amended theorem at a concrete benign run. -/
theorem handlers_installed_before_lock_witness :
    ∃ tail : List Event,
      (mainRun argsPlain envPlain).1 =
        [Event.installHandler Sig.SIGTERM, Event.installHandler Sig.SIGINT] ++
          (if envPlain.rootExists then [] else
            [Event.mkdirs (abspath envPlain.cwd argsPlain.root_folder)]) ++
          (Event.openLock
              (joinPath (dbPathOf argsPlain (abspath envPlain.cwd argsPlain.root_folder))
                "gphotos.lock") ::
            Event.lockAttempt
              (joinPath (dbPathOf argsPlain (abspath envPlain.cwd argsPlain.root_folder))
                "gphotos.lock") :: tail) :=
  handlers_installed_before_lock argsPlain envPlain rfl rfl

/-- Members of a truncated phase-event list are phase events. -/
theorem mem_take_map_phase {l : List Phase} {k : Nat} {ev : Event}
    (h : ev ∈ (l.map Event.phase).take k) : ∃ p, ev = Event.phase p := by
  have hm := List.take_subset k (l.map Event.phase) h
  obtain ⟨p, _, hp⟩ := List.mem_map.mp hm
  exact ⟨p, hp.symm⟩

/-- C9: the top-level capture catches exactly `Exception` subclasses, so the
`SystemExit(0)` raised by the lock-contention exit and by the signal handler
propagates uncaught through it: on both paths the process exits 0 without
ever logging the process-failed warning, without a second trace write from
the capture branch, and without reaching the elapsed-time report — while the
lock descriptor is still closed by the enclosing `with fp:` scope. -/
theorem system_exit_bypasses_capture :
    (∀ (a : Args) (env : Env),
        logLevelValid a.log_level = true → lockOpenOk a env = true →
        env.lockHeld = true →
        (mainRun a env).2 = Outcome.exit 0 ∧
          Event.closeLock ∈ (mainRun a env).1 ∧
          (∀ en tf, Event.warnProcessFailed en tf ∉ (mainRun a env).1) ∧
          (∀ pth c m, Event.writeTrace pth c m ∉ (mainRun a env).1) ∧
          Event.logElapsed ∉ (mainRun a env).1) ∧
    (∀ (a : Args) (env : Env) (k : Nat) (sg : Sig),
        logLevelValid a.log_level = true → lockOpenOk a env = true →
        env.lockHeld = false → env.setupRaises = none →
        (∀ p, env.phaseExc p = none) → env.signalAfter = some (k, sg) →
        k ≤ (startPhases a).length →
        (mainRun a env).2 = Outcome.exit 0 ∧
          Event.closeLock ∈ (mainRun a env).1 ∧
          (∀ en tf, Event.warnProcessFailed en tf ∉ (mainRun a env).1) ∧
          (mainRun a env).1.countP isTraceWrite = 1 ∧
          Event.logElapsed ∉ (mainRun a env).1) := by
  constructor
  · intro a env hl ho hheld
    cases hr : env.rootExists <;> simp [mainRun, hl, ho, hheld, hr]
  · intro a env k sg hl ho hheld hsetup hph hsig hk
    have hrp := runPhases_signal env.phaseExc env.cwd sg (startPhases a) k hk
      (fun p _ => hph p)
    have hb : runBody a env =
        ([Event.setupStarted, Event.setupDone, Event.storeOpen] ++
           (((startPhases a).take k).map Event.phase ++
             (sigterm_handler sg none env.cwd).1) ++
           [Event.storeClose], some (ExcName.SystemExit 0)) := by
      simp [runBody, hsetup, hsig, hrp]
    cases hr : env.rootExists <;> cases sg <;>
      simp [mainRun, hl, ho, hheld, hr, hb, isException, sigterm_handler,
        isTraceWrite, List.countP_append, List.countP_cons, List.countP_map,
        Function.comp, List.map_take] <;>
      refine ⟨fun en tf hmem => ?_, fun ev hmem => ?_, fun hmem => ?_⟩ <;>
      obtain ⟨p, hp⟩ := mem_take_map_phase hmem <;>
      first
        | exact absurd hp (by simp)
        | simp [hp]

/-- Witness for C9's signal branch: the concrete run interrupted by `SIGTERM`
after two phases exits 0. -/
theorem system_exit_bypasses_capture_witness :
    (mainRun argsPlain envSignal2).2 = Outcome.exit 0 :=
  (system_exit_bypasses_capture.2 argsPlain envSignal2 2 Sig.SIGTERM rfl rfl rfl
    rfl (fun _ => rfl) rfl (by decide)).1

/-- C10: when `--db-path` is supplied, the program never creates that
directory — the only directory ever created is the resolved root folder —
and if the supplied directory is missing, `open(lock_file, 'w')` raises
`FileNotFoundError` before the lock is attempted and before the top-level
capture is installed, so the exception escapes and the run is outside the
always-exit-0 guarantee (no lock attempt and no phase happens). -/
theorem db_path_never_created :
    (∀ (a : Args) (env : Env) (p : String), a.db_path = some p →
        ∀ q, Event.mkdirs q ∈ (mainRun a env).1 →
          q = abspath env.cwd a.root_folder) ∧
    (∀ (a : Args) (env : Env) (p : String), a.db_path = some p →
        env.dbDirExists = false → logLevelValid a.log_level = true →
        (mainRun a env).2 = Outcome.uncaught ExcName.FileNotFoundError ∧
          (∀ q, Event.lockAttempt q ∉ (mainRun a env).1) ∧
          (∀ ph, Event.phase ph ∉ (mainRun a env).1)) := by
  constructor
  · intro a env p _ q hq
    rcases mainRun_mem a env _ hq with h|h|h|h|h|h|h|h|h|h|h|h|h
    · simp at h
    · simp at h
    · simpa using h
    · simp at h
    · simp at h
    · simp at h
    · simp at h
    · rcases runBody_mem a env _ h with h|h|h|h|⟨pp, h⟩|h|h|h <;> simp at h
    · rcases h with ⟨en, h⟩
      simp at h
    · rcases h with ⟨c, h⟩
      simp at h
    · simp at h
    · simp at h
    · simp at h
  · intro a env p hdb hdbe hl
    have ho : lockOpenOk a env = false := by simp [lockOpenOk, hdb, hdbe]
    cases hr : env.rootExists <;> simp [mainRun, hl, ho, hr]

/-- Witness for C10: a concrete run with a missing `--db-path` directory
ends in an uncaught `FileNotFoundError`. -/
theorem db_path_never_created_witness :
    (mainRun ⟨"/photos", "info", some "/dbdir", false, false, false, false,
        false, false⟩ envNoDb).2 = Outcome.uncaught ExcName.FileNotFoundError :=
  (db_path_never_created.2
    ⟨"/photos", "info", some "/dbdir", false, false, false, false, false,
     false⟩ envNoDb "/dbdir" rfl rfl rfl).1

/-- C4 (code bug): evaluating `sigterm_handler` for each signal with no
exception active (the normal situation when a signal arrives): it warns —
with the extra "User cancelled" line distinguishing `SIGINT` — writes the
trace file, and raises `SystemExit 0`, BUT the written content is
`traceback.format_exc()` of the absent current exception, the constant
`"NoneType: None\n"`, not the call/stack trace at the moment of the signal:
the handler ignores its `_stack_frame` argument, although the in-code
comment says the write is there "so we can diagnose lockups" and the logged
message promises a stacktrace. -/
theorem sigterm_handler_trace_content :
    sigterm_handler Sig.SIGTERM none "/cwd" =
      ([Event.warnProcessKilled,
        Event.writeTrace "/cwd/.gphotos-terminated" "NoneType: None\n"
          writeMode],
       ExcName.SystemExit 0) ∧
    sigterm_handler Sig.SIGINT none "/cwd" =
      ([Event.warnUserCancelled, Event.warnProcessKilled,
        Event.writeTrace "/cwd/.gphotos-terminated" "NoneType: None\n"
          writeMode],
       ExcName.SystemExit 0) := by
  refine ⟨?_, ?_⟩ <;> decide

/-- C5 (code bug): with working directory `/cwd` and root folder `/root1`, a
captured failure's only trace write goes to `/cwd/.gphotos-terminated` —
`open(TRACE_FILE, "w")` resolves the bare relative name against the working
directory — while `self.trace_file`, the root-folder path promised by the
warning logged on the neighbouring line (and by the spec), is the different
path `/root1/.gphotos-terminated`. -/
theorem trace_written_at_cwd_not_root :
    (mainRun ⟨"/root1", "info", none, false, false, false, false, false,
        false⟩
      ⟨"/cwd", true, true, false, true, some (ExcName.other "KeyError"),
       fun _ => none, none⟩).1.filter isTraceWrite =
      [Event.writeTrace "/cwd/.gphotos-terminated"
        (format_exc (some (ExcName.other "KeyError"))) writeMode] ∧
    Event.warnProcessFailed "KeyError" "/root1/.gphotos-terminated" ∈
      (mainRun ⟨"/root1", "info", none, false, false, false, false, false,
          false⟩
        ⟨"/cwd", true, true, false, true, some (ExcName.other "KeyError"),
         fun _ => none, none⟩).1 ∧
    "/cwd/.gphotos-terminated" ≠ "/root1/.gphotos-terminated" := by
  refine ⟨?_, ?_, ?_⟩ <;> decide

end Gphotos
